import Mathlib

/-!
Shallow embedding of `src/app.ts` (typescript-masterclass-seed).

JavaScript numbers are modelled as rationals (`ℚ`); the arithmetic the file
performs (division by 1000 and 60000, `Math.floor`, the `%` remainder
operator) is exact on every value the file uses.  The union type
`string | number` is modelled as `String ⊕ ℚ`, and a possibly-`undefined`
value of type `τ` as `Option τ` with `none` standing for `undefined`.
-/

/-- JS `Math.floor`, modelled on rationals. -/
def jsFloor (q : ℚ) : ℤ := ⌊q⌋

/-- Truncation toward zero, as used by the JS `%` operator. -/
def jsTrunc (q : ℚ) : ℤ := if 0 ≤ q then ⌊q⌋ else ⌈q⌉

/-- The JS remainder operator `a % b`: `a - b * trunc(a / b)`. -/
def jsMod (a b : ℚ) : ℚ := a - b * (jsTrunc (a / b) : ℚ)

/-- JS number-to-string conversion as used by template literals, for the
integral values this file produces; a non-integral rational is rendered as
`num/den` (no such value occurs in the examples of the source file). -/
def numToString (q : ℚ) : String :=
  if q.den = 1 then Int.repr q.num
  else Int.repr q.num ++ "/" ++ Nat.repr q.den

/-- Rendering of a JS integer (e.g. the result of `Math.floor`). -/
def intToString (n : ℤ) : String := Int.repr n

-- typeof and Type Guards (src/app.ts lines 94-114)

/-- class Song { constructor(public title: string, public duration: string | number) {} } -/
structure Song where
  title : String
  duration : String ⊕ ℚ
deriving DecidableEq

/-- function getSongDuration(item: Song): the `typeof item.duration === 'string'`
branch returns the string unchanged; otherwise
`minutes = Math.floor(duration / 60000)`, `seconds = (duration / 1000) % 60`,
returning the template literal `minutes ":" seconds`. -/
def getSongDuration (item : Song) : String :=
  match item.duration with
  | Sum.inl s => s
  | Sum.inr duration =>
      let minutes := jsFloor (duration / 60000)
      let seconds := jsMod (duration / 1000) 60
      intToString minutes ++ ":" ++ numToString seconds

/-- const songDurationFromString = getSongDuration(new Song('Wonderful Wonderful', '05:31')) -/
def songDurationFromString : String :=
  getSongDuration ⟨"Wonderful Wonderful", Sum.inl "05:31"⟩

/-- const songDurationFromMS = getSongDuration(new Song('Wonderful Wonderful', 330000)) -/
def songDurationFromMS : String :=
  getSongDuration ⟨"Wonderful Wonderful", Sum.inr 330000⟩

-- Function Overloads (src/app.ts lines 277-291)

/-- JS `str.split('')`: the list of one-character strings of `str`. -/
def jsSplitEmpty (s : String) : List String :=
  s.data.map (fun c => String.mk [c])

/-- JS `arr.join('')` on an array of strings: concatenation with empty separator. -/
def jsJoinEmpty : List String → String
  | [] => ""
  | s :: rest => s ++ jsJoinEmpty rest

/-- The string branch of the overloaded `reverse`:
`str.split('').reverse().join('')`. -/
def reverseString (str : String) : String :=
  jsJoinEmpty (jsSplitEmpty str).reverse

/-- JS `arr.slice()` with no arguments: a shallow copy of the whole array. -/
def jsSliceCopy {α : Type} (arr : List α) : List α := arr

/-- The array branch of the overloaded `reverse`:
`arr.slice().reverse()` — the in-place `.reverse()` acts on the fresh copy
made by `.slice()`. -/
def reverseArray {α : Type} (arr : List α) : List α :=
  (jsSliceCopy arr).reverse

/-- Observable outcome of one call `reverse(arr)` on an array: the returned
array and the contents of the argument array after the call.  Since the
in-place `.reverse()` mutates only the `.slice()` copy, the argument keeps
its contents. -/
structure ArrayReverseCall (α : Type) where
  returned : List α
  argumentAfter : List α
deriving DecidableEq

/-- One call of the array overload `reverse(arr)` with its effect (none) on
the argument. -/
def reverseArrayCall {α : Type} (arr : List α) : ArrayReverseCall α :=
  { returned := reverseArray arr, argumentAfter := arr }

-- Mapped Types (src/app.ts lines 20-50)

/-- interface Person { name: string; age: number } -/
structure Person where
  name : String
  age : ℚ
deriving DecidableEq

/-- const person: Person = { name: 'Tyler', age: 30 } -/
def person : Person := ⟨"Tyler", 30⟩

/-- MyPartial<Person>: each field may be absent (`none`). -/
structure MyPartialPerson where
  name : Option String
  age : Option ℚ
deriving DecidableEq

/-- function updatePerson(person, prop) { return { ...person, ...prop } }:
the spread of `prop` overrides each field of `person` that `prop` supplies. -/
def updatePerson (p : Person) (prop : MyPartialPerson) : Person :=
  { name := prop.name.getD p.name, age := prop.age.getD p.age }

-- Readonly Mapped Type and freeze (src/app.ts lines 31-39)

/-- A runtime JS object with fields `α` and its `Object.isFrozen` status. -/
structure JSObj (α : Type) where
  fields : α
  frozen : Bool
deriving DecidableEq

/-- function freeze<T>(obj: T) { return Object.freeze(obj) }:
`Object.freeze` marks the object frozen without touching any field. -/
def freeze {α : Type} (obj : JSObj α) : JSObj α :=
  { obj with frozen := true }

/-- A JS property assignment `obj.p = v`, given as the field update `upd` it
would perform: on a frozen object the assignment is silently ignored
(non-strict mode), otherwise the field is updated. -/
def writeField {α : Type} (obj : JSObj α) (upd : α → α) : JSObj α :=
  if obj.frozen then obj else { obj with fields := upd obj.fields }

-- instanceof, user-defined and literal type guards (src/app.ts lines 117-155)

/-- class Album { kind: 'album'; constructor(public title: string, public duration: number) {} }
The `kind` field is declared but the constructor never assigns it, so at
runtime it can be `undefined` (`none`). -/
structure Album where
  kind : Option String
  title : String
  duration : ℚ
deriving DecidableEq

/-- new Album(title, duration): the constructor sets `title` and `duration`
only; `kind` stays `undefined`. -/
def Album.new (title : String) (duration : ℚ) : Album :=
  ⟨none, title, duration⟩

/-- class Playlist { kind: 'playlist'; constructor(public name: string, public songs: Album[]) {} }
As for Album, `kind` is declared but never assigned. -/
structure Playlist where
  kind : Option String
  name : String
  songs : List Album
deriving DecidableEq

/-- new Playlist(name, songs). -/
def Playlist.new (name : String) (songs : List Album) : Playlist :=
  ⟨none, name, songs⟩

/-- function getItemName(item: Album | Playlist):
`item instanceof Album` is the runtime class test, i.e. the case split of
the union; the Album branch returns `item.title`, the other `item.name`. -/
def getItemName : Album ⊕ Playlist → String
  | Sum.inl a => a.title
  | Sum.inr p => p.name

/-- function isAlbum(item: any): item is Album { return item instanceof Album } -/
def isAlbum : Album ⊕ Playlist → Bool
  | Sum.inl _ => true
  | Sum.inr _ => false

/-- function getName(item: Album | Playlist): guarded by `isAlbum(item)`;
when the guard holds the item is an Album and `item.title` is returned,
otherwise `item.name`. -/
def getName (item : Album ⊕ Playlist) : String :=
  if isAlbum item then
    match item with
    | Sum.inl a => a.title
    | Sum.inr p => p.name
  else
    match item with
    | Sum.inl a => a.title
    | Sum.inr p => p.name

/-- function getKindName(item: Album | Playlist):
`item.kind === 'album'` is a runtime comparison on the `kind` property; when
it succeeds the code reads `item.title`, otherwise `item.name`.  Reading a
property the object lacks (an Album has no `name`, a Playlist no `title`)
yields `undefined` (`none`). -/
def getKindName : Album ⊕ Playlist → Option String
  | Sum.inl a => if a.kind = some "album" then some a.title else none
  | Sum.inr p => if p.kind = some "album" then none else some p.name

-- Record Mapped Type, enums and module-level statements (lines 79-91, 294-304)

/-- interface TrackStates { current: string; next: string } -/
structure TrackStates where
  current : String
  next : String
deriving DecidableEq

/-- const item: Record<keyof TrackStates, string> = { current: 'js02js9', next: '8nlksjsk' } -/
def item : TrackStates := ⟨"js02js9", "8nlksjsk"⟩

/-- const enum Size { Small = 'small', Medium = 'medium', Large = 'large' } -/
inductive Size where
  | small
  | medium
  | large
deriving DecidableEq

/-- A string-keyed Record<string, TrackStates>, as an association list with
at most one entry per key. -/
def dictSet (d : List (String × TrackStates)) (k : String) (v : TrackStates) :
    List (String × TrackStates) :=
  match d with
  | [] => [(k, v)]
  | (k0, v0) :: rest =>
      if k0 = k then (k0, v) :: rest else (k0, v0) :: dictSet rest k v

/-- The mutable module-level bindings of the file, together with a constant
one for comparison: `let dictionary` (line 79), `let selected` (line 300)
and `const selectedSizes` (line 296). -/
structure ModuleState where
  dictionary : List (String × TrackStates)
  selected : Size
  selectedSizes : ℚ
deriving DecidableEq

/-- Each binding at its initialization: `dictionary = {}`,
`selected = Size.Small`, `selectedSizes = 2`. -/
def initState : ModuleState :=
  { dictionary := [], selected := Size.small, selectedSizes := 2 }

/-- function updateSize(size: Size): void { selected = size } -/
def updateSize (s : ModuleState) (size : Size) : ModuleState :=
  { s with selected := size }

/-- The module state after all top-level statements run:
`dictionary[0] = item` (line 91; the numeric key 0 is coerced to the string
'0') followed by `updateSize(Size.Large)` (line 304). -/
def finalState : ModuleState :=
  updateSize
    { initState with dictionary := dictSet initState.dictionary "0" item }
    Size.large

-- Function Generics (src/app.ts lines 253-267)

/-- class List<T> { private list: T[]; ... } — renamed to avoid the clash
with Lean's List.  The private field `list` is declared without an
initializer, so it holds `undefined` (`none`) until something assigns it. -/
structure GList (T : Type) where
  list : Option (List T)
deriving DecidableEq

/-- new List<T>(): no constructor, so `list` keeps its `undefined` value. -/
def GList.new (T : Type) : GList T := ⟨none⟩

/-- addItem(item: T): void — its only statement, `this.list.push(item)`, is
commented out, so the method leaves the object unchanged. -/
def GList.addItem {T : Type} (l : GList T) (_item : T) : GList T := l

/-- getList(): T[] { return this.list } — returns whatever the field holds,
`undefined` included. -/
def GList.getList {T : Type} (l : GList T) : Option (List T) := l.list

/-! Theorems about the embedded program. -/

theorem jsJoinEmpty_singletons (l : List Char) :
    (jsJoinEmpty (l.map (fun c => String.mk [c]))).data = l := by
  induction l with
  | nil => rfl
  | cons c cs ih =>
      simp only [List.map_cons, jsJoinEmpty, String.data_append, ih]
      rfl

theorem reverseString_data (s : String) :
    (reverseString s).data = s.data.reverse := by
  unfold reverseString jsSplitEmpty
  rw [← List.map_reverse]
  exact jsJoinEmpty_singletons s.data.reverse

/-- C1: for every string s, the string overload of reverse returns the string
whose characters are those of s in reverse order, and in particular
reverse('Birthday') returns 'yadhtriB'. -/
theorem C1_reverse_string :
    (∀ s : String, (reverseString s).data = s.data.reverse) ∧
      reverseString "Birthday" = "yadhtriB" := by
  refine ⟨reverseString_data, ?_⟩
  decide

/-- C2: getSongDuration on the numeric duration 330000 returns '5:30', and on
any numeric duration d it returns the string formed from floor(d/60000), a
colon, and the JS remainder (d/1000) % 60. -/
theorem C2_getSongDuration_numeric :
    songDurationFromMS = "5:30" ∧
      ∀ (t : String) (d : ℚ),
        getSongDuration ⟨t, Sum.inr d⟩ =
          intToString (jsFloor (d / 60000)) ++ ":" ++
            numToString (jsMod (d / 1000) 60) := by
  constructor
  · show getSongDuration _ = _
    simp only [getSongDuration]
    norm_num [jsFloor, jsMod, jsTrunc]
    simp only [numToString, intToString, Rat.den_ofNat, Rat.num_ofNat, if_pos]
    decide
  · intro t d
    rfl

/-- C3: updatePerson performs a shallow merge: each field of the result takes
the value supplied by prop when there is one and the value of p otherwise;
the input record p itself is left as it was (the embedding is pure and the
fourth conjunct exhibits p intact). -/
theorem C3_updatePerson_merge :
    ∀ (p : Person) (n : String) (a : ℚ),
      updatePerson p ⟨some n, some a⟩ = ⟨n, a⟩ ∧
        updatePerson p ⟨some n, none⟩ = ⟨n, p.age⟩ ∧
          updatePerson p ⟨none, some a⟩ = ⟨p.name, a⟩ ∧
            updatePerson p ⟨none, none⟩ = p :=
  fun _ _ _ => ⟨rfl, rfl, rfl, rfl⟩

/-- C4 counterexample: the claim that every top-level variable holds the same
value after all statements run as when it was initialized is false — the
binding selected is initialized to Size.Small but ends as Size.Large (and
dictionary changes as well). -/
theorem C4_counterexample_top_level_state_changes :
    finalState.selected ≠ initState.selected ∧
      finalState.dictionary ≠ initState.dictionary := by
  decide

/-- C4 (amended): executing the top-level statements changes exactly the two
let-bindings dictionary (which gains the single entry keyed '0' holding
item, the numeric key being coerced to a string) and selected (which ends as
Size.Large); constant bindings such as selectedSizes are unchanged. -/
theorem C4_amended_top_level_effects :
    finalState =
      { dictionary := [("0", item)], selected := Size.large,
        selectedSizes := initState.selectedSizes } := by
  decide

/-- C5: the user-defined-guard dispatcher getName and the instanceof
dispatcher getItemName agree on every Album-or-Playlist input. -/
theorem C5_getName_eq_getItemName :
    ∀ item : Album ⊕ Playlist, getName item = getItemName item := by
  intro item
  cases item <;> rfl

/-- C6: freeze returns an object whose fields all equal those of its
argument, and any property assignment attempted after freeze leaves the
object — hence every field value — unchanged. -/
theorem C6_freeze :
    ∀ (α : Type) (obj : JSObj α) (upd : α → α),
      (freeze obj).fields = obj.fields ∧
        writeField (freeze obj) upd = freeze obj :=
  fun _ _ _ => ⟨rfl, rfl⟩

/-- C7: the array overload of reverse returns a new array holding exactly the
elements of the argument in reverse order, and the argument array still
holds its original contents after the call. -/
theorem C7_reverse_array :
    ∀ (α : Type) (arr : List α),
      (reverseArrayCall arr).returned = arr.reverse ∧
        (reverseArrayCall arr).argumentAfter = arr :=
  fun _ _ => ⟨rfl, rfl⟩

/-- C8: getSongDuration returns a string duration unchanged; in particular on
new Song('Wonderful Wonderful', '05:31') it returns '05:31'. -/
theorem C8_getSongDuration_string :
    (∀ (t s : String), getSongDuration ⟨t, Sum.inl s⟩ = s) ∧
      songDurationFromString = "05:31" :=
  ⟨fun _ _ => rfl, rfl⟩

theorem GList.foldl_addItem {T : Type} (items : List T) (l : GList T) :
    items.foldl GList.addItem l = l := by
  induction items generalizing l with
  | nil => rfl
  | cons i rest ih => exact ih l

/-- C9: the internal list field of List<T> is never initialized and addItem
never changes it, so after any sequence of addItem calls getList returns the
same undefined value as on a fresh instance — never an array of the added
items. -/
theorem C9_list_stays_undefined :
    ∀ (T : Type) (items : List T),
      GList.getList (items.foldl GList.addItem (GList.new T)) = none ∧
        GList.getList (GList.new T) = none := by
  intro T items
  rw [GList.foldl_addItem]
  exact ⟨rfl, rfl⟩

/-- C10: a constructed Album has kind undefined, so the literal tag check in
getKindName fails and it returns the (undefined) name property, while
getItemName returns the title — so the two disagree on every constructed
Album. -/
theorem C10_getKindName_on_album :
    ∀ (t : String) (d : ℚ),
      (Album.new t d).kind = none ∧
        getKindName (Sum.inl (Album.new t d)) = none ∧
          getItemName (Sum.inl (Album.new t d)) = t ∧
            getKindName (Sum.inl (Album.new t d)) ≠
              some (getItemName (Sum.inl (Album.new t d))) :=
  fun _ _ => ⟨rfl, rfl, rfl, fun h => Option.noConfusion h⟩
